import Mathlib

/-!
Shallow embedding of the agent orchestration and workspace-merge engine
(the `POST /api/agent` route handler of the ATLAS console repository).

Modelling conventions:
* ISO-8601 timestamp strings produced by `new Date().toISOString()` are
  modelled as natural numbers (milliseconds since the epoch); `toISOString`
  output is fixed-width, so lexicographic order on the strings coincides
  with numeric order on the instants they denote.
* The wall clock read by `new Date()` inside `mergeWorkspace` is passed as
  an explicit `now : Nat` argument.
* Optional fields (`due?`, `owner?`, `tags?`, the `??` fallback) are
  modelled with `Option`.
* JSON values arriving from the generative model are modelled by `Raw…`
  structures whose enumerated fields are plain strings; the zod schema
  `agentResponseSchema` becomes the parsing function
  `agentResponseSchemaParse`, which fails (returns `none`) exactly when
  zod validation would reject the value.
-/

/-- Role of a conversation message (`"user" | "assistant"`). -/
inductive Role where
  | user
  | assistant
deriving DecidableEq, Repr

/-- A conversation message (`AgentMessage` in `types/agent`): id, role,
content and creation timestamp. -/
structure AgentMessage where
  id : String
  role : Role
  content : String
  createdAt : Nat
deriving DecidableEq, Repr

/-- Task status enum: `"backlog" | "in-progress" | "blocked" | "done"`. -/
inductive TaskStatus where
  | backlog
  | inProgress
  | blocked
  | done
deriving DecidableEq, Repr

/-- Priority / impact enum: `"low" | "medium" | "high"`. -/
inductive Priority where
  | low
  | medium
  | high
deriving DecidableEq, Repr

/-- A workspace task (`AgentTask`). -/
structure AgentTask where
  id : String
  title : String
  description : String
  status : TaskStatus
  priority : Priority
  due : Option String
  owner : Option String
  tags : Option (List String)
deriving DecidableEq, Repr

/-- Automation status enum: `"idle" | "scheduled" | "running"`. -/
inductive AutomationStatus where
  | idle
  | scheduled
  | running
deriving DecidableEq, Repr

/-- An automation routine (`AgentAutomation`). -/
structure AgentAutomation where
  id : String
  name : String
  cadence : String
  description : String
  status : AutomationStatus
  lastRun : Option String
  nextRun : Option String
deriving DecidableEq, Repr

/-- Decision status enum: `"open" | "closed"`. -/
inductive DecisionStatus where
  | isOpen
  | isClosed
deriving DecidableEq, Repr

/-- A decision record (`AgentDecision`). -/
structure AgentDecision where
  id : String
  title : String
  summary : String
  impact : Priority
  status : DecisionStatus
  owner : Option String
  due : Option String
deriving DecidableEq, Repr

/-- The persisted workspace snapshot (`AgentWorkspaceState`). -/
structure AgentWorkspaceState where
  tasks : List AgentTask
  automations : List AgentAutomation
  decisions : List AgentDecision
  insights : List String
  knowledgeHighlights : List String
  updatedAt : Nat
deriving DecidableEq, Repr

/-- The `updates` argument of `mergeWorkspace`
(`Omit<AgentWorkspaceState, "updatedAt">`, with `knowledgeHighlights`
optional so that the `??` fallback on line 86 of the route is faithfully
represented). -/
structure WorkspaceUpdates where
  tasks : List AgentTask
  automations : List AgentAutomation
  decisions : List AgentDecision
  insights : List String
  knowledgeHighlights : Option (List String)
deriving DecidableEq, Repr

/-- `mergeWorkspace` from the route handler: spreads the prior workspace,
replaces `tasks`, `automations`, `decisions`, `insights` wholesale with the
generated values, takes `updates.knowledgeHighlights ?? prior.knowledgeHighlights`,
and stamps `updatedAt` with the current clock reading (`new Date()` passed
explicitly as `now`). -/
def mergeWorkspace (prior : AgentWorkspaceState) (updates : WorkspaceUpdates)
    (now : Nat) : AgentWorkspaceState :=
  { prior with
    tasks := updates.tasks
    automations := updates.automations
    decisions := updates.decisions
    insights := updates.insights
    knowledgeHighlights := updates.knowledgeHighlights.getD prior.knowledgeHighlights
    updatedAt := now }

/-- C1: for every prior workspace and every generated update — with no
restriction on how the generated lists relate to the prior ones — the
merged workspace's `tasks`, `automations`, `decisions` and `insights`
equal exactly the generated lists, element for element and in the
generation's order (wholesale replacement, not a patch, diff or union);
and in the case the identity-continuity property instantiates, where the
generated task list extends the prior one, every prior task survives
unaltered at its original position, so no prior task id is altered by the
merge itself. -/
theorem mergeWorkspace_wholesale_replacement
    (prior : AgentWorkspaceState) (updates : WorkspaceUpdates) (now : Nat) :
    (mergeWorkspace prior updates now).tasks = updates.tasks ∧
    (mergeWorkspace prior updates now).automations = updates.automations ∧
    (mergeWorkspace prior updates now).decisions = updates.decisions ∧
    (mergeWorkspace prior updates now).insights = updates.insights ∧
    ∀ rest : List AgentTask, updates.tasks = prior.tasks ++ rest →
      (mergeWorkspace prior updates now).tasks.take prior.tasks.length = prior.tasks ∧
      ((mergeWorkspace prior updates now).tasks.take prior.tasks.length).map AgentTask.id
        = prior.tasks.map AgentTask.id := by
  refine ⟨rfl, rfl, rfl, rfl, fun rest h => ?_⟩
  constructor <;> simp [mergeWorkspace, h, List.take_left]

/-- A concrete prior task used in witnesses. -/
def taskA : AgentTask :=
  { id := "task-1", title := "Plan onboarding launch"
    description := "Break the launch into workstreams."
    status := TaskStatus.inProgress, priority := Priority.high
    due := some "2026-10-20", owner := some "Ana", tags := some ["launch"] }

/-- A concrete newly generated task used in witnesses. -/
def taskB : AgentTask :=
  { id := "task-2", title := "Draft announcement email"
    description := "Customer-facing update for the automation hub."
    status := TaskStatus.backlog, priority := Priority.medium
    due := none, owner := none, tags := none }

/-- A concrete prior workspace used in witnesses. -/
def priorEx : AgentWorkspaceState :=
  { tasks := [taskA], automations := [], decisions := []
    insights := ["Focus the week on onboarding."]
    knowledgeHighlights := ["Activation playbook"], updatedAt := 5 }

/-- A concrete generated update extending the prior task list by one task. -/
def updatesEx : WorkspaceUpdates :=
  { tasks := [taskA, taskB], automations := [], decisions := []
    insights := ["Two tasks in flight."], knowledgeHighlights := none }

/-- Witness for C1 at a concrete prior workspace whose task list is
extended by one generated task, discharging the inner continuity
hypothesis there. -/
theorem mergeWorkspace_wholesale_replacement_witness :
    (mergeWorkspace priorEx updatesEx 9).tasks = updatesEx.tasks ∧
    (mergeWorkspace priorEx updatesEx 9).automations = updatesEx.automations ∧
    (mergeWorkspace priorEx updatesEx 9).decisions = updatesEx.decisions ∧
    (mergeWorkspace priorEx updatesEx 9).insights = updatesEx.insights ∧
    (mergeWorkspace priorEx updatesEx 9).tasks.take priorEx.tasks.length = priorEx.tasks ∧
    ((mergeWorkspace priorEx updatesEx 9).tasks.take priorEx.tasks.length).map AgentTask.id
      = priorEx.tasks.map AgentTask.id :=
  ⟨(mergeWorkspace_wholesale_replacement priorEx updatesEx 9).1,
    (mergeWorkspace_wholesale_replacement priorEx updatesEx 9).2.1,
    (mergeWorkspace_wholesale_replacement priorEx updatesEx 9).2.2.1,
    (mergeWorkspace_wholesale_replacement priorEx updatesEx 9).2.2.2.1,
    ((mergeWorkspace_wholesale_replacement priorEx updatesEx 9).2.2.2.2 [taskB] (by decide)).1,
    ((mergeWorkspace_wholesale_replacement priorEx updatesEx 9).2.2.2.2 [taskB] (by decide)).2⟩

/-- Counterexample to C2 as stated: `mergeWorkspace` stamps `updatedAt`
with the wall clock at merge time, so a merge performed at an instant equal
to the prior (client-supplied) `updatedAt` — e.g. two requests in the same
millisecond, or a round-tripped workspace carrying a future timestamp —
yields an `updatedAt` that is not strictly after the prior value. -/
theorem mergeWorkspace_updatedAt_not_strictly_increasing :
    ¬ priorEx.updatedAt < (mergeWorkspace priorEx updatesEx priorEx.updatedAt).updatedAt := by
  decide

/-- C2 (amended): the merged `updatedAt` equals the merge's own clock
reading, and whenever that reading is strictly after the prior `updatedAt`
(as it is when the clock advances between successive successful merges),
`updatedAt` strictly increases. -/
theorem mergeWorkspace_updatedAt_eq_now
    (prior : AgentWorkspaceState) (updates : WorkspaceUpdates) (now : Nat)
    (h : prior.updatedAt < now) :
    (mergeWorkspace prior updates now).updatedAt = now ∧
    prior.updatedAt < (mergeWorkspace prior updates now).updatedAt :=
  ⟨rfl, h⟩

/-- Witness for the amended C2 at a concrete merge whose clock reading is
strictly after the prior `updatedAt`. -/
theorem mergeWorkspace_updatedAt_eq_now_witness :
    priorEx.updatedAt < 9 ∧
    ((mergeWorkspace priorEx updatesEx 9).updatedAt = 9 ∧
      priorEx.updatedAt < (mergeWorkspace priorEx updatesEx 9).updatedAt) :=
  ⟨by decide, mergeWorkspace_updatedAt_eq_now priorEx updatesEx 9 (by decide)⟩

/-- Counterexample to C3 as stated: `mergeWorkspace` calls `new Date()`,
so two invocations on identical prior workspace and identical generated
fields, performed at different instants, return different results — the
merge is not a pure function of its two arguments alone. -/
theorem mergeWorkspace_not_pure_in_two_arguments :
    mergeWorkspace priorEx updatesEx 5 ≠ mergeWorkspace priorEx updatesEx 6 := by
  decide

/-- C3 (amended): `mergeWorkspace` is deterministic as a function of the
prior workspace, the generated fields, and the clock reading at invocation
time: every field other than `updatedAt` depends only on the two data
arguments (identical across any two clock readings), and `updatedAt`
equals the clock reading. -/
theorem mergeWorkspace_deterministic_given_clock
    (prior : AgentWorkspaceState) (updates : WorkspaceUpdates) (n n' : Nat) :
    (mergeWorkspace prior updates n).tasks = (mergeWorkspace prior updates n').tasks ∧
    (mergeWorkspace prior updates n).automations = (mergeWorkspace prior updates n').automations ∧
    (mergeWorkspace prior updates n).decisions = (mergeWorkspace prior updates n').decisions ∧
    (mergeWorkspace prior updates n).insights = (mergeWorkspace prior updates n').insights ∧
    (mergeWorkspace prior updates n).knowledgeHighlights
      = (mergeWorkspace prior updates n').knowledgeHighlights ∧
    (mergeWorkspace prior updates n).updatedAt = n :=
  ⟨rfl, rfl, rfl, rfl, rfl, rfl⟩

/-- C4: when the generated result supplies no `knowledgeHighlights`
(`updates.knowledgeHighlights = none`), the `??` fallback keeps the prior
workspace's `knowledgeHighlights` unchanged. -/
theorem mergeWorkspace_knowledgeHighlights_fallback
    (prior : AgentWorkspaceState) (updates : WorkspaceUpdates) (now : Nat)
    (h : updates.knowledgeHighlights = none) :
    (mergeWorkspace prior updates now).knowledgeHighlights = prior.knowledgeHighlights := by
  simp [mergeWorkspace, h]

/-- Witness for C4 at a concrete update that omits `knowledgeHighlights`. -/
theorem mergeWorkspace_knowledgeHighlights_fallback_witness :
    updatesEx.knowledgeHighlights = none ∧
    (mergeWorkspace priorEx updatesEx 9).knowledgeHighlights = priorEx.knowledgeHighlights :=
  ⟨rfl, mergeWorkspace_knowledgeHighlights_fallback priorEx updatesEx 9 rfl⟩

/-- A raw (JSON-level) task as emitted by the model, before zod
validation: enumerated fields are plain strings. -/
structure RawAgentTask where
  id : String
  title : String
  description : String
  status : String
  priority : String
  due : Option String
  owner : Option String
  tags : Option (List String)
deriving DecidableEq, Repr

/-- A raw (JSON-level) automation before zod validation. -/
structure RawAgentAutomation where
  id : String
  name : String
  cadence : String
  description : String
  status : String
  lastRun : Option String
  nextRun : Option String
deriving DecidableEq, Repr

/-- A raw (JSON-level) decision before zod validation. -/
structure RawAgentDecision where
  id : String
  title : String
  summary : String
  impact : String
  status : String
  owner : Option String
  due : Option String
deriving DecidableEq, Repr

/-- The raw (JSON-level) structured output of the model, before zod
validation against `agentResponseSchema`. -/
structure RawAgentResponse where
  reply : String
  tasks : List RawAgentTask
  automations : List RawAgentAutomation
  decisions : List RawAgentDecision
  insights : List String
  actionSummary : List String
deriving DecidableEq, Repr

/-- The schema-valid structured result (`agentResponseSchema` after
validation). Note it has no `knowledgeHighlights` field: the schema
declares none. -/
structure AgentResponse where
  reply : String
  tasks : List AgentTask
  automations : List AgentAutomation
  decisions : List AgentDecision
  insights : List String
  actionSummary : List String
deriving DecidableEq, Repr

/-- `z.enum(["backlog", "in-progress", "blocked", "done"])`. -/
def parseTaskStatus (s : String) : Option TaskStatus :=
  if s = "backlog" then some TaskStatus.backlog
  else if s = "in-progress" then some TaskStatus.inProgress
  else if s = "blocked" then some TaskStatus.blocked
  else if s = "done" then some TaskStatus.done
  else none

/-- `z.enum(["low", "medium", "high"])`. -/
def parsePriority (s : String) : Option Priority :=
  if s = "low" then some Priority.low
  else if s = "medium" then some Priority.medium
  else if s = "high" then some Priority.high
  else none

/-- `z.enum(["idle", "scheduled", "running"])`. -/
def parseAutomationStatus (s : String) : Option AutomationStatus :=
  if s = "idle" then some AutomationStatus.idle
  else if s = "scheduled" then some AutomationStatus.scheduled
  else if s = "running" then some AutomationStatus.running
  else none

/-- `z.enum(["open", "closed"])`. -/
def parseDecisionStatus (s : String) : Option DecisionStatus :=
  if s = "open" then some DecisionStatus.isOpen
  else if s = "closed" then some DecisionStatus.isClosed
  else none

/-- The task object schema inside `agentResponseSchema.tasks`. -/
def parseAgentTask (r : RawAgentTask) : Option AgentTask := do
  let status ← parseTaskStatus r.status
  let priority ← parsePriority r.priority
  pure { id := r.id, title := r.title, description := r.description
         status := status, priority := priority
         due := r.due, owner := r.owner, tags := r.tags }

/-- The automation object schema inside `agentResponseSchema.automations`. -/
def parseAgentAutomation (r : RawAgentAutomation) : Option AgentAutomation := do
  let status ← parseAutomationStatus r.status
  pure { id := r.id, name := r.name, cadence := r.cadence
         description := r.description, status := status
         lastRun := r.lastRun, nextRun := r.nextRun }

/-- The decision object schema inside `agentResponseSchema.decisions`. -/
def parseAgentDecision (r : RawAgentDecision) : Option AgentDecision := do
  let impact ← parsePriority r.impact
  let status ← parseDecisionStatus r.status
  pure { id := r.id, title := r.title, summary := r.summary
         impact := impact, status := status
         owner := r.owner, due := r.due }

/-- `z.array(elem).max(maxLen)`: every element must satisfy the element
schema and the array length must not exceed `maxLen`. -/
def parseBoundedArray (p : α → Option β) (maxLen : Nat) (xs : List α) :
    Option (List β) :=
  if xs.length ≤ maxLen then xs.mapM p else none

/-- `agentResponseSchema` as a validator: `tasks` bounded by 12,
`automations` by 6, `decisions` by 8, `insights` by 8; `reply` and
`actionSummary` are unconstrained strings. Returns `none` exactly when zod
validation fails, in which case `generateObject` throws. -/
def agentResponseSchemaParse (r : RawAgentResponse) : Option AgentResponse := do
  let tasks ← parseBoundedArray parseAgentTask 12 r.tasks
  let automations ← parseBoundedArray parseAgentAutomation 6 r.automations
  let decisions ← parseBoundedArray parseAgentDecision 8 r.decisions
  let insights ← parseBoundedArray some 8 r.insights
  pure { reply := r.reply, tasks := tasks, automations := automations
         decisions := decisions, insights := insights
         actionSummary := r.actionSummary }

/-- A knowledge-base entry: `{title, domain, summary, takeaways}`. -/
structure KnowledgeEntry where
  title : String
  domain : String
  summary : String
  takeaways : List String
deriving DecidableEq, Repr

/-- Modelled from the spec: the static curated corpus behind
`searchKnowledgeBase`; `lib/knowledge-base` is not under `src/`. The
contract depends only on it being a small static list of entries. -/
def knowledgeCorpus : List KnowledgeEntry :=
  [ { title := "Onboarding activation", domain := "growth"
      summary := "Sequence activation milestones early."
      takeaways := ["Instrument the first session", "Shorten time to value"] }
  , { title := "Automation cadences", domain := "operations"
      summary := "Schedule recurring routines conservatively."
      takeaways := ["Prefer weekly cadences"] } ]

/-- Splits a character list into space-separated words, dropping empty
words; `acc` holds the characters of the word being read, reversed. -/
def wordsAux : List Char → List Char → List (List Char)
  | [], acc => if acc = [] then [] else [acc.reverse]
  | c :: cs, acc =>
    if c = ' ' then
      if acc = [] then wordsAux cs [] else acc.reverse :: wordsAux cs []
    else wordsAux cs (c :: acc)

/-- The words of an entry's searchable text (title and summary). -/
def entryText (e : KnowledgeEntry) : List (List Char) :=
  wordsAux (e.title ++ " " ++ e.summary).data []

/-- Modelled from the spec: `searchKnowledgeBase(query, domainFilter)` from
`lib/knowledge-base`, which is not under `src/`. The spec fixes only the
contract: deterministic given corpus and query, keyword/lexical relevance,
at most a small fixed number of entries, and an empty or absent query must
not fail — it yields an empty or low-relevance list. Modelled as keyword
overlap between the query's words and an entry's text, keeping entries
with at least one overlapping word, at most three. -/
def searchKnowledgeBase (query : String) (domainFilter : Option String) :
    List KnowledgeEntry :=
  let words := wordsAux query.data []
  let pool : List KnowledgeEntry := match domainFilter with
    | some d => knowledgeCorpus.filter (fun e => e.domain = d)
    | none => knowledgeCorpus
  (pool.filter (fun e => words.any (fun w => (entryText e).contains w))).take 3

/-- Label of a role as it appears in a transcript line. -/
def roleLabel : Role → String
  | Role.user => "user"
  | Role.assistant => "assistant"

/-- Modelled from the spec: `formatConversationHistory` from
`lib/conversation`, which is not under `src/`: renders each message as a
labeled `role: content` line, preserving input order; empty input yields
empty text. -/
def formatConversationHistory (messages : List AgentMessage) : String :=
  String.intercalate "\n"
    (messages.map (fun m => roleLabel m.role ++ ": " ++ m.content))

/-- Line 92 of the route:
`[...request.messages].reverse().find((message) => message.role === "user")` —
the most recent user-authored message, if any. -/
def latestUserMessage (messages : List AgentMessage) : Option AgentMessage :=
  messages.reverse.find? (fun m =>
    match m.role with
    | Role.user => true
    | Role.assistant => false)

/-- The query handed to `searchKnowledgeBase` on line 97:
`latestUserMessage?.content ?? ""`. -/
def knowledgeQuery (messages : List AgentMessage) : String :=
  match latestUserMessage messages with
  | some m => m.content
  | none => ""

/-- The request body: `{messages, workspace}` (`AgentAPIRequest`). -/
structure AgentAPIRequest where
  messages : List AgentMessage
  workspace : AgentWorkspaceState
deriving DecidableEq, Repr

/-- `buildPromptPayload` from the route: retrieves knowledge for the
latest user message, renders the entries, and joins the sections — the
knowledge context (or a placeholder when the rendered summary is empty,
the `||` on line 111), the conversation history, and fixed instructions. -/
def buildPromptPayload (request : AgentAPIRequest) : String :=
  let knowledgeSuggestions :=
    searchKnowledgeBase (knowledgeQuery request.messages) none
  let knowledgeSummary :=
    (String.intercalate "\n\n"
      (knowledgeSuggestions.map (fun entry =>
        entry.title ++ " (" ++ entry.domain ++ ")\n" ++ entry.summary ++ "\n" ++
          String.intercalate "\n"
            (entry.takeaways.map (fun item => "- " ++ item))))).trim
  String.intercalate "\n"
    [ "Context from curated knowledge base (use when helpful):"
    , if knowledgeSummary = "" then
        "No directly relevant knowledge snippets located."
      else knowledgeSummary
    , ""
    , "Conversation history:"
    , formatConversationHistory request.messages
    , ""
    , "Instructions:"
    , "- Return thoughtful updates even if you need clarification; outline reasonable assumptions and next steps."
    , "- Maintain continuity. Preserve task IDs and automation IDs from earlier turns."
    , "- If something is blocked, surface a direct ask with a suggested owner." ]

/-- The success response body: `{reply, workspace, actionSummary}`
(`AgentAPIResponse`). -/
structure AgentAPIResponse where
  reply : String
  workspace : AgentWorkspaceState
  actionSummary : List String
deriving DecidableEq, Repr

/-- An HTTP response of the route: `NextResponse.json(body, {status})`,
either the 200 success body or an error body `{error}` with its status. -/
inductive HttpResponse where
  | ok (body : AgentAPIResponse)
  | err (status : Nat) (error : String)
deriving DecidableEq, Repr

/-- HTTP status of a response (200 on the success branch). -/
def HttpResponse.status : HttpResponse → Nat
  | HttpResponse.ok _ => 200
  | HttpResponse.err s _ => s

/-- The workspace carried by a response, if any; error responses carry
none. -/
def responseWorkspace : HttpResponse → Option AgentWorkspaceState
  | HttpResponse.ok b => some b.workspace
  | HttpResponse.err _ _ => none

/-- The missing-credential error message (route lines 127-128). -/
def missingKeyMessage : String :=
  "Missing OPENAI_API_KEY. Set the environment variable to connect the autonomous agent."

/-- The malformed-body error message (route line 138). -/
def invalidPayloadMessage : String := "Invalid request payload."

/-- The generic generation-failure error message (route line 170). -/
def agentFailedMessage : String := "The autonomous agent could not complete the request."

/-- `generateObject` with `schema: agentResponseSchema`: the upstream
transport either fails outright or delivers a raw structured value, which
is then validated against the schema; any schema violation also throws.
The transport outcome is an explicit argument (the external model call). -/
def generateObjectM (transport : Except String RawAgentResponse) :
    Except String AgentResponse :=
  match transport with
  | Except.error e => Except.error e
  | Except.ok raw =>
    match agentResponseSchemaParse raw with
    | none => Except.error "schema validation failed"
    | some obj => Except.ok obj

/-- The `POST` route handler. Explicit arguments model the ambient state:
`apiKeyEnv` is `process.env.OPENAI_API_KEY`, `body` is the JSON-parse
outcome of the request body (`none` = unparseable), `transport` is the
outcome of the external model call, `now` the wall clock at merge time.
Order follows the source: credential check (`!process.env.OPENAI_API_KEY`,
false for both absent and empty), then body parse, then generation inside
`try` (prompt composition via `buildPromptPayload` is total and cannot
throw), then the merge — passing the request workspace's own
`knowledgeHighlights` (route line 156) — then the 200 response; any
failure in the `try` is caught as the generic 500. -/
def POST (apiKeyEnv : Option String) (body : Option AgentAPIRequest)
    (transport : Except String RawAgentResponse) (now : Nat) : HttpResponse :=
  if apiKeyEnv.getD "" = "" then
    HttpResponse.err 500 missingKeyMessage
  else
    match body with
    | none => HttpResponse.err 400 invalidPayloadMessage
    | some payload =>
      match generateObjectM transport with
      | Except.error _ => HttpResponse.err 500 agentFailedMessage
      | Except.ok agentResult =>
        let workspace := mergeWorkspace payload.workspace
          { tasks := agentResult.tasks
            automations := agentResult.automations
            decisions := agentResult.decisions
            insights := agentResult.insights
            knowledgeHighlights := some payload.workspace.knowledgeHighlights } now
        HttpResponse.ok
          { reply := agentResult.reply, workspace := workspace
            actionSummary := agentResult.actionSummary }

/-- A concrete assistant message used in witnesses. -/
def msgAssistant : AgentMessage :=
  { id := "m1", role := Role.assistant, content := "Ready to help.", createdAt := 1 }

/-- A concrete user message used in witnesses. -/
def msgUser : AgentMessage :=
  { id := "m2", role := Role.user, content := "Plan onboarding launch", createdAt := 2 }

/-- A concrete request body used in witnesses. -/
def reqEx : AgentAPIRequest :=
  { messages := [msgAssistant, msgUser], workspace := priorEx }

/-- C6: with the credential absent from the environment, the handler
returns status 500 with the specific missing-credential message; the
response carries no workspace, and the result is identical for every body
and every transport outcome, so no payload parsing, knowledge retrieval,
generation call or other I/O influences it — the check short-circuits
before any other processing. -/
theorem post_missing_credential
    (body : Option AgentAPIRequest) (transport : Except String RawAgentResponse)
    (now : Nat) :
    POST none body transport now = HttpResponse.err 500 missingKeyMessage ∧
    (POST none body transport now).status = 500 ∧
    responseWorkspace (POST none body transport now) = none ∧
    ∀ (body' : Option AgentAPIRequest) (transport' : Except String RawAgentResponse),
      POST none body' transport' now = POST none body transport now := by
  refine ⟨rfl, rfl, rfl, fun body' transport' => rfl⟩

/-- C7: with the credential present but an unparseable JSON body, the
handler returns status 400 with the generic message
`Invalid request payload.`; the result is identical for every transport
outcome, so no generation call is attempted. -/
theorem post_invalid_payload (key : String)
    (transport : Except String RawAgentResponse) (now : Nat) (hk : key ≠ "") :
    POST (some key) none transport now = HttpResponse.err 400 invalidPayloadMessage ∧
    (POST (some key) none transport now).status = 400 ∧
    responseWorkspace (POST (some key) none transport now) = none ∧
    ∀ transport', POST (some key) none transport' now = POST (some key) none transport now := by
  refine ⟨?_, ?_, ?_, fun transport' => ?_⟩ <;>
    simp [POST, hk, responseWorkspace, HttpResponse.status]

/-- Witness for C7 at a concrete present credential and unparseable body. -/
theorem post_invalid_payload_witness :
    ("sk-test" ≠ "") ∧
    POST (some "sk-test") none (Except.error "boom") 3
      = HttpResponse.err 400 invalidPayloadMessage :=
  ⟨by decide, (post_invalid_payload "sk-test" (Except.error "boom") 3 (by decide)).1⟩

/-- C8: when the generation step (or any downstream step inside the `try`)
fails, the handler returns status 500 whose body is exactly
`The autonomous agent could not complete the request.` — the statement
holds uniformly in the failure cause `e`, so the cause is never echoed to
the client (it is only logged) — and the response carries no workspace:
the request yields no workspace change at all. -/
theorem post_generation_failure (key : String) (payload : AgentAPIRequest)
    (transport : Except String RawAgentResponse) (e : String) (now : Nat)
    (hk : key ≠ "") (hg : generateObjectM transport = Except.error e) :
    POST (some key) (some payload) transport now
      = HttpResponse.err 500 agentFailedMessage ∧
    responseWorkspace (POST (some key) (some payload) transport now) = none := by
  constructor <;> simp [POST, hk, hg, responseWorkspace]

/-- Witness for C8 at a concrete upstream transport failure. -/
theorem post_generation_failure_witness :
    ("sk-test" ≠ "") ∧
    generateObjectM (Except.error "upstream timeout") = Except.error "upstream timeout" ∧
    POST (some "sk-test") (some reqEx) (Except.error "upstream timeout") 9
      = HttpResponse.err 500 agentFailedMessage ∧
    responseWorkspace
      (POST (some "sk-test") (some reqEx) (Except.error "upstream timeout") 9) = none :=
  ⟨by decide, rfl,
    post_generation_failure "sk-test" reqEx (Except.error "upstream timeout")
      "upstream timeout" 9 (by decide) rfl⟩

/-- Helper: `z.array(p).max(m)` rejects any array longer than `m`. -/
theorem parseBoundedArray_none (p : α → Option β) (m : Nat) (xs : List α)
    (h : m < xs.length) : parseBoundedArray p m xs = none := by
  simp [parseBoundedArray, Nat.not_le.mpr h]

/-- C5: schema validation enforces the list bounds before the merge runs:
any raw result with more than 12 tasks (so in particular 13), more than 6
automations, more than 8 decisions or more than 8 insights fails
validation (`generateObject` throws, a `GenerationError`), and the handler
maps it to the generic 500 error without any workspace — the result never
reaches the merge. -/
theorem agentResponseSchema_enforces_bounds
    (r : RawAgentResponse) (key : String) (payload : AgentAPIRequest) (now : Nat)
    (hk : key ≠ "")
    (h : 12 < r.tasks.length ∨ 6 < r.automations.length ∨
         8 < r.decisions.length ∨ 8 < r.insights.length) :
    agentResponseSchemaParse r = none ∧
    POST (some key) (some payload) (Except.ok r) now
      = HttpResponse.err 500 agentFailedMessage ∧
    responseWorkspace (POST (some key) (some payload) (Except.ok r) now) = none := by
  have hnone : agentResponseSchemaParse r = none := by
    rcases h with h | h | h | h
    · simp [agentResponseSchemaParse, parseBoundedArray_none _ _ _ h]
    · cases h1 : parseBoundedArray parseAgentTask 12 r.tasks <;>
        simp [agentResponseSchemaParse, h1, parseBoundedArray_none _ _ _ h]
    · cases h1 : parseBoundedArray parseAgentTask 12 r.tasks <;>
      cases h2 : parseBoundedArray parseAgentAutomation 6 r.automations <;>
        simp [agentResponseSchemaParse, h1, h2, parseBoundedArray_none _ _ _ h]
    · cases h1 : parseBoundedArray parseAgentTask 12 r.tasks <;>
      cases h2 : parseBoundedArray parseAgentAutomation 6 r.automations <;>
      cases h3 : parseBoundedArray parseAgentDecision 8 r.decisions <;>
        simp [agentResponseSchemaParse, h1, h2, h3, parseBoundedArray_none _ _ _ h]
  refine ⟨hnone, ?_, ?_⟩ <;>
    simp [POST, hk, generateObjectM, hnone, responseWorkspace]

/-- A structurally valid raw task used to build an overlong task list. -/
def rawTaskStub : RawAgentTask :=
  { id := "t", title := "title", description := "desc", status := "done"
    priority := "low", due := none, owner := none, tags := none }

/-- A raw result with 13 tasks, one past the schema maximum of 12. -/
def raw13Ex : RawAgentResponse :=
  { reply := "ok", tasks := List.replicate 13 rawTaskStub, automations := []
    decisions := [], insights := [], actionSummary := [] }

/-- Witness for C5 at a concrete raw result with 13 tasks. -/
theorem agentResponseSchema_enforces_bounds_witness :
    ("sk-test" ≠ "") ∧ 12 < raw13Ex.tasks.length ∧
    agentResponseSchemaParse raw13Ex = none :=
  ⟨by decide, by decide,
    (agentResponseSchema_enforces_bounds raw13Ex "sk-test" reqEx 9 (by decide)
      (Or.inl (by decide))).1⟩

/-- C10: the schema-valid structured result (`AgentResponse`) has no
`knowledgeHighlights` field, and the handler passes the request
workspace's own `knowledgeHighlights` into the merge (route line 156), so
every successful response's workspace carries the request workspace's
`knowledgeHighlights` exactly — the generation can never supply a
replacement through this endpoint. -/
theorem post_success_preserves_knowledgeHighlights
    (apiKeyEnv : Option String) (payload : AgentAPIRequest)
    (transport : Except String RawAgentResponse) (now : Nat)
    (ws : AgentWorkspaceState)
    (h : responseWorkspace (POST apiKeyEnv (some payload) transport now) = some ws) :
    ws.knowledgeHighlights = payload.workspace.knowledgeHighlights := by
  by_cases hk : apiKeyEnv.getD "" = ""
  · simp [POST, hk, responseWorkspace] at h
  · cases hg : generateObjectM transport with
    | error e => simp [POST, hk, hg, responseWorkspace] at h
    | ok obj =>
      simp [POST, hk, hg, responseWorkspace] at h
      subst h
      simp [mergeWorkspace]

/-- A raw model result that passes schema validation, used in witnesses. -/
def rawOkEx : RawAgentResponse :=
  { reply := "Queued the launch plan."
    tasks := [{ id := "task-2", title := "Draft announcement email"
                description := "Customer-facing update for the automation hub."
                status := "backlog", priority := "medium"
                due := none, owner := none, tags := none }]
    automations := [], decisions := [], insights := ["Two tasks in flight."]
    actionSummary := ["Added the announcement task."] }

/-- The merged workspace produced by the concrete successful request of
the C10 witness. -/
def mergedEx : AgentWorkspaceState :=
  mergeWorkspace priorEx
    { tasks := [taskB], automations := [], decisions := []
      insights := ["Two tasks in flight."]
      knowledgeHighlights := some priorEx.knowledgeHighlights } 9

/-- Witness for C10 at a concrete successful request. -/
theorem post_success_preserves_knowledgeHighlights_witness :
    responseWorkspace (POST (some "sk-test") (some reqEx) (Except.ok rawOkEx) 9)
      = some mergedEx ∧
    mergedEx.knowledgeHighlights = reqEx.workspace.knowledgeHighlights :=
  ⟨by decide,
    post_success_preserves_knowledgeHighlights (some "sk-test") reqEx
      (Except.ok rawOkEx) 9 mergedEx (by decide)⟩

/-- The Boolean predicate passed to `find?` in `latestUserMessage`
(`message.role === "user"`). -/
theorem latestUserMessage_pred_eq (m : AgentMessage) :
    (match m.role with
      | Role.user => true
      | Role.assistant => false) = true ↔ m.role = Role.user := by
  cases h : m.role <;> simp

/-- C9: the knowledge retrieval of `buildPromptPayload` is invoked with
`knowledgeQuery request.messages` (route line 96), and that query is
exactly the content of the most recent user-authored message: whenever the
message list splits as `l₁ ++ m :: l₂` with `m` a user message and no user
message after it, the query is `m.content`; and when the list contains no
user-role message the query is the empty string, on which the retrieval
returns without error (the empty list, not a failure). -/
theorem knowledgeQuery_latest_user (msgs : List AgentMessage) :
    (∀ (l₁ l₂ : List AgentMessage) (m : AgentMessage),
      msgs = l₁ ++ m :: l₂ → m.role = Role.user →
      (∀ x ∈ l₂, x.role ≠ Role.user) → knowledgeQuery msgs = m.content) ∧
    ((∀ x ∈ msgs, x.role ≠ Role.user) →
      knowledgeQuery msgs = "" ∧
      searchKnowledgeBase (knowledgeQuery msgs) none = []) := by
  constructor
  · intro l₁ l₂ m hsplit hm hl₂
    subst hsplit
    have hrev : (l₁ ++ m :: l₂).reverse = l₂.reverse ++ m :: l₁.reverse := by
      simp
    have hnone : l₂.reverse.find? (fun x =>
        match x.role with
        | Role.user => true
        | Role.assistant => false) = none := by
      rw [List.find?_eq_none]
      intro x hx
      have hx' : x ∈ l₂ := List.mem_reverse.mp hx
      simpa [latestUserMessage_pred_eq] using hl₂ x hx'
    have hfind : latestUserMessage (l₁ ++ m :: l₂) = some m := by
      unfold latestUserMessage
      rw [hrev, List.find?_append, hnone, Option.none_or]
      exact List.find?_cons_of_pos _ ((latestUserMessage_pred_eq m).mpr hm)
    simp [knowledgeQuery, hfind]
  · intro hnone
    have hfind : latestUserMessage msgs = none := by
      unfold latestUserMessage
      rw [List.find?_eq_none]
      intro x hx
      have hx' : x ∈ msgs := List.mem_reverse.mp hx
      simpa [latestUserMessage_pred_eq] using hnone x hx'
    have hq : knowledgeQuery msgs = "" := by simp [knowledgeQuery, hfind]
    exact ⟨hq, by rw [hq]; decide⟩

/-- Witness for C9: a list whose most recent user message is `msgUser`
(followed by an assistant message), and a list with no user message. -/
theorem knowledgeQuery_latest_user_witness :
    (msgUser.role = Role.user ∧
      knowledgeQuery [msgAssistant, msgUser, msgAssistant] = msgUser.content) ∧
    ((∀ x ∈ [msgAssistant], x.role ≠ Role.user) ∧
      knowledgeQuery [msgAssistant] = "" ∧
      searchKnowledgeBase (knowledgeQuery [msgAssistant]) none = []) :=
  ⟨⟨by decide,
      (knowledgeQuery_latest_user [msgAssistant, msgUser, msgAssistant]).1
        [msgAssistant] [msgAssistant] msgUser rfl (by decide) (by decide)⟩,
    ⟨by decide,
      (knowledgeQuery_latest_user [msgAssistant]).2 (by decide)⟩⟩
